import Mathlib

/-!
Shallow embedding of the `dag_servier` repository:
`src/dags/custom_operator/custom_operator.py` (the bronze / silver / gold
operators) and `src/dags/dag.py` (the workflow graph).

The helper module `app.utils.utils` (functions `read_file`, `save_file`,
`gcs_handler_blob`, `reconciliation_data`) is not part of the repository
sources available here; following the spec these are boundary collaborators.
`read_file` is passed in as an explicit function argument, `save_file`,
`gcs_handler_blob` and `shutil.rmtree` are recorded as effects in an emitted
trace, and `reconciliation_data` is modelled from the spec (section 4.3).
-/

namespace DagServier

/-- A filesystem path, as the ordered list of its segments (root first).
`pathlib.Path` operations used by the source: `/` is appending a segment,
`.parent` drops the last segment, `.name` is the last segment, `.stem` is the
name with its final suffix removed. -/
abbrev Path := List String

/-- `pathlib.PurePath.name`: the final path component. -/
def Path.name (p : Path) : String := p.getLastD ("")

/-- `pathlib.PurePath.parent`: the path without its final component. -/
def Path.parent (p : Path) : Path := p.dropLast

/-- Index of the last occurrence of `'.'` in a list of characters
(`str.rfind` restricted to the dot), `none` when there is no dot. -/
def lastDotIdx : List Char → Option Nat
  | [] => none
  | c :: cs =>
    match lastDotIdx cs with
    | some i => some (i + 1)
    | none => if c = '.' then some 0 else none

/-- `pathlib.PurePath.stem` on a file name: the name with its last suffix
removed; following CPython, the suffix is nonempty exactly when the last dot
sits at an index `i` with `0 < i < length - 1`. -/
def stemOf (s : String) : String :=
  match lastDotIdx s.data with
  | none => s
  | some i => if 0 < i ∧ i < s.data.length - 1 then ⟨s.data.take i⟩ else s

/-- `pathlib.PurePath.stem` of a path. -/
def Path.stem (p : Path) : String := stemOf (Path.name p)

/-- A valid drug record (spec section 3: `{ atccode/id, name }`). -/
structure Drugs where
  id : String
  name : String
deriving DecidableEq, Repr

/-- A valid mention record, the canonical shape shared by PubMed-JSON,
PubMed-CSV and clinical-trials rows after normalization (spec section 3:
`{ id, title, journal, date }` plus the origin tag). -/
structure Mention where
  id : String
  title : String
  journal : String
  date : String
  origin : String
deriving DecidableEq, Repr

/-- Python `str.lower()` as the character list of the lowercased string. -/
def lowerData (s : String) : List Char := s.data.map Char.toLower

/-- Does `needle` occur at the very start of `haystack`? -/
def leadsList : List Char → List Char → Bool
  | [], _ => true
  | _ :: _, [] => false
  | c :: cs, d :: ds => c = d && leadsList cs ds

/-- Python's substring test `needle in haystack` on character lists: `needle`
occurs contiguously somewhere in `haystack` (the empty needle always does). -/
def containsSub (needle : List Char) : List Char → Bool
  | [] => needle.isEmpty
  | d :: ds => leadsList needle (d :: ds) || containsSub needle ds

/-- Modelled from the spec (section 4.3 step 1): a mention matches a drug iff
the drug's name, case-folded, occurs as a substring of the mention's title,
case-folded — `drug.name.lower() in mention.title.lower()`. -/
def mentionMatches (drug : Drugs) (m : Mention) : Bool :=
  containsSub (lowerData drug.name) (lowerData m.title)

/-- Modelled from the spec (section 3): one reconciliation result per drug —
the drug, the matching mentions, and for each journal seen among them the
distinct dates on which it published a matching mention. -/
structure ReconciliationResult where
  drug : Drugs
  journals : List (String × List String)
  mentions : List Mention
deriving DecidableEq, Repr

/-- Modelled from the spec (section 4.3 step 3): group the matching mentions
by journal, collecting each journal's distinct dates. -/
def journalsOf (ms : List Mention) : List (String × List String) :=
  ((ms.map Mention.journal).dedup).map fun j =>
    (j, ((ms.filter fun m => m.journal == j).map Mention.date).dedup)

/-- Modelled from the spec: `utils.reconciliation_data` is not under the
available sources; spec section 4.3 — scan the PubMed mentions and the
clinical-trials mentions, keep every mention whose case-folded title contains
the drug's case-folded name as a substring, and aggregate the drug with its
matching mentions and their journal/date provenance. -/
def reconciliation_data (drug : Drugs) (elements_pubmed : List Mention)
    (elements_clinical_trials : List Mention) : ReconciliationResult :=
  let matching :=
    (elements_pubmed ++ elements_clinical_trials).filter (mentionMatches drug)
  { drug := drug, journals := journalsOf matching, mentions := matching }

/-- One boundary side effect performed by an operator's `execute`, recorded in
program order. `π` is the payload type written by `utils.save_file`.
`gcsHandlerBlob` records a call to `utils.gcs_handler_blob`, `rmtree` a call
to `shutil.rmtree`. -/
inductive FsEffect (π : Type) where
  | saveFile (data : π) (file_path : Path)
  | gcsHandlerBlob (type_of_operation : String) (bucket_name : String)
      (local_file_name : Path) (gcs_file_name : String)
  | rmtree (p : Path)
deriving DecidableEq, Repr

/-- A local filesystem effect stays within one of the directories `dirs`:
a saved file's parent directory, or a removed tree, is one of them; a
storage push touches no local state. -/
def FsEffect.writesWithin {π : Type} (dirs : List Path) : FsEffect π → Prop
  | .saveFile _ p => Path.parent p ∈ dirs
  | .gcsHandlerBlob _ _ _ _ => True
  | .rmtree p => p ∈ dirs

/-- The constructor arguments of `PreprossecingSilverData`
(`custom_operator.py` lines 115–128). -/
structure SilverOp where
  bucket_name : String
  local_file_name : Path
  prefix_gcs_file_name : String
  type_of_schema : String
deriving DecidableEq, Repr

/-- `PreprossecingSilverData.execute` (`custom_operator.py` lines 130–166),
with `utils.read_file` passed in as the boundary reader: it returns the
`(valid, invalid)` partition (`α` the valid record type, `ρ` the raw invalid
record type) or raises a fault `ε`. A raised fault propagates and nothing is
persisted; on success the emitted effect trace is, in program order: save the
invalid partition locally, save the valid partition locally, push the error
file then the valid file to the bucket, then remove the two temporary
directories. -/
def silverExecute {α ρ ε : Type} (op : SilverOp)
    (read_file : Path → String → Except ε (List α × List ρ)) :
    Except ε (List (FsEffect (List α ⊕ List ρ))) :=
  match read_file op.local_file_name op.type_of_schema with
  | .error e => .error e
  | .ok (valid_items, invalid_items) =>
    let error_path_local : Path :=
      Path.parent op.local_file_name ++
        ["error", Path.stem op.local_file_name ++ "_error.json"]
    let valid_path_local : Path :=
      Path.parent op.local_file_name ++
        ["valid", Path.stem op.local_file_name ++ "_valid.json"]
    let error_path_gcs : String :=
      op.prefix_gcs_file_name ++ "/" ++ Path.name error_path_local
    let valid_path_gcs : String :=
      op.prefix_gcs_file_name ++ "/" ++ Path.name valid_path_local
    .ok [.saveFile (Sum.inr invalid_items) error_path_local,
         .saveFile (Sum.inl valid_items) valid_path_local,
         .gcsHandlerBlob ("push") op.bucket_name error_path_local error_path_gcs,
         .gcsHandlerBlob ("push") op.bucket_name valid_path_local valid_path_gcs,
         .rmtree (Path.parent error_path_local),
         .rmtree (Path.parent valid_path_local)]

/-- Modelled from the spec (sections 4.3/5): `joblib.Parallel(n_jobs=n)` over
a generator of delayed calls — each call reads only its own input, and the
worker for index `i` writes its result into slot `i` of the output, so the
output order follows the input order, not completion order, at any degree of
parallelism `n_jobs`. -/
def parallelRun {α β : Type} (n_jobs : Nat) (f : α → β) (xs : List α) :
    List β :=
  (List.range xs.length).filterMap fun i => Option.map f xs[i]?

/-- The constructor arguments of `PreprossecingGoldData`
(`custom_operator.py` lines 207–222). -/
structure GoldOp where
  bucket_name : String
  path_elements_drug : Path
  path_elements_pubmed_json : Path
  path_elements_pubmed_csv : Path
  path_elements_clinical_trials : Path
deriving DecidableEq, Repr

/-- `custom_operator.py` line 241: the PubMed input of reconciliation is the
valid PubMed-JSON records followed by the valid PubMed-CSV records. -/
def pubmedValidOf (pubmed_json_valid_items pubmed_csv_valid_items :
    List Mention) : List Mention :=
  pubmed_json_valid_items ++ pubmed_csv_valid_items

/-- `custom_operator.py` lines 243–250: one per-drug function —
`reconciliation_data` closed over the shared `elements_pubmed` and
`elements_clinical_trials` via `functools` — mapped over the valid drugs by
`Parallel` with the hardcoded `n_jobs=1`. -/
def goldReconcile (elements_pubmed elements_clinical_trials : List Mention)
    (drug_valid_items : List Drugs) : List ReconciliationResult :=
  parallelRun 1
    (fun drug => reconciliation_data drug elements_pubmed
      elements_clinical_trials)
    drug_valid_items

/-- `custom_operator.py` lines 252–256: the output path
`Path(__file__).resolve().parent / "reconciliated" / "drug_reconciliated.json"`,
with `opRoot` standing for the module file's resolved parent directory. -/
def reconciliatedDataPath (opRoot : Path) : Path :=
  opRoot ++ ["reconciliated", "drug_reconciliated.json"]

/-- `PreprossecingGoldData.execute` (`custom_operator.py` lines 224–265).
`utils.read_file` is dynamically typed in the source; here it is passed as
one typed boundary reader per schema (`ρ` the raw invalid record type, `ε`
the fault type). Each of the four sources is read with `type_of_schema` set
to the path's stem and only the valid half of each partition is kept; the
PubMed lists are concatenated; reconciliation runs as the `n_jobs=1` job-pool
map; the result is saved locally, pushed with the blob name
`reconciliatedDataPath.name`, and the temporary directory removed. -/
def goldExecute {ρ ε : Type} (opRoot : Path) (op : GoldOp)
    (read_file_drugs : Path → String → Except ε (List Drugs × List ρ))
    (read_file_pubmed_json read_file_pubmed_csv read_file_clinical_trials :
      Path → String → Except ε (List Mention × List ρ)) :
    Except ε (List (FsEffect (List ReconciliationResult))) :=
  match read_file_drugs op.path_elements_drug
      (Path.stem op.path_elements_drug) with
  | .error e => .error e
  | .ok (drug_valid_items, _) =>
  match read_file_pubmed_json op.path_elements_pubmed_json
      (Path.stem op.path_elements_pubmed_json) with
  | .error e => .error e
  | .ok (pubmed_json_valid_items, _) =>
  match read_file_pubmed_csv op.path_elements_pubmed_csv
      (Path.stem op.path_elements_pubmed_csv) with
  | .error e => .error e
  | .ok (pubmed_csv_valid_items, _) =>
  match read_file_clinical_trials op.path_elements_clinical_trials
      (Path.stem op.path_elements_clinical_trials) with
  | .error e => .error e
  | .ok (clinical_trials_valid_items, _) =>
    let pubmed_valid :=
      pubmedValidOf pubmed_json_valid_items pubmed_csv_valid_items
    let drugs_reconciliated :=
      goldReconcile pubmed_valid clinical_trials_valid_items drug_valid_items
    let reconciliated_data_path := reconciliatedDataPath opRoot
    .ok [.saveFile drugs_reconciliated reconciliated_data_path,
         .gcsHandlerBlob ("push") op.bucket_name reconciliated_data_path
           (Path.name reconciliated_data_path),
         .rmtree (Path.parent reconciliated_data_path)]

/-- `dag.py` line 11, as a function of the resolved repository root
`path_parent_folder_file` (line 10). -/
def path_file_clinical_trials (root : Path) : Path :=
  root ++ ["file", "clinical_trials.csv"]

/-- `dag.py` line 12. -/
def path_drugs (root : Path) : Path := root ++ ["file", "drugs.csv"]

/-- `dag.py` line 13. -/
def path_file_pubmed_csv (root : Path) : Path := root ++ ["file", "pubmed.csv"]

/-- `dag.py` line 14. -/
def path_file_pubmed_json (root : Path) : Path :=
  root ++ ["file", "pubmed.json"]

/-- `dag.py` lines 16–21: the set of the four local source paths the DAG loop
iterates over. Python iterates a `set`, whose order is unspecified; the tasks
and edges built from it do not depend on that order, so a list in declaration
order stands for it. -/
def all_paths_local (root : Path) : List Path :=
  [path_file_clinical_trials root, path_drugs root, path_file_pubmed_csv root,
   path_file_pubmed_json root]

/-- Python `str.replace(".", "_")`: every dot becomes an underscore. -/
def replaceDotUnderscore (s : String) : String :=
  ⟨s.data.map fun c => if c = '.' then '_' else c⟩

/-- `dag.py` line 37. -/
def startTaskId : String := "start_point"

/-- `dag.py` line 38. -/
def endTaskId : String := "end_point"

/-- `dag.py` line 41: the task id of the single gold reconciliation task. -/
def goldTaskId : String := "push_gold_data_to_gcs_reconcialted_data"

/-- `dag.py` line 52: the bronze task id for a source file. -/
def bronzeTaskIdOf (p : Path) : String :=
  replaceDotUnderscore ("push_raw_data_to_gcs_" ++ Path.name p)

/-- `dag.py` line 61: the silver task id for a source file. -/
def silverTaskIdOf (p : Path) : String :=
  replaceDotUnderscore ("push_silver_data_to_gcs_" ++ Path.name p)

/-- `dag.py` lines 60–67: the silver operator built for a source file — its
`type_of_schema` and `prefix_gcs_file_name` are both the file's stem. -/
def silverOpFor (p : Path) : SilverOp :=
  { bucket_name := "servier-silver", local_file_name := p,
    prefix_gcs_file_name := Path.stem p, type_of_schema := Path.stem p }

/-- `dag.py` lines 40–48: the gold operator, wired to the four fixed source
paths. -/
def goldOpFor (root : Path) : GoldOp :=
  { bucket_name := "servier-gold",
    path_elements_drug := path_drugs root,
    path_elements_pubmed_json := path_file_pubmed_json root,
    path_elements_pubmed_csv := path_file_pubmed_csv root,
    path_elements_clinical_trials := path_file_clinical_trials root }

/-- `dag.py` lines 50–75: the dependency edges of the DAG, by task id. For
every source file `p`:
`start_point >> bronze(p) >> silver(p) >> gold >> end_point`. -/
def dagEdges (root : Path) : List (String × String) :=
  (all_paths_local root).flatMap fun p =>
    [(startTaskId, bronzeTaskIdOf p), (bronzeTaskIdOf p, silverTaskIdOf p),
     (silverTaskIdOf p, goldTaskId), (goldTaskId, endTaskId)]

/-- A schedule (a position for every task id) respects a dependency edge list
when every edge's source runs strictly before its target. -/
def respects (order : String → Nat) (edges : List (String × String)) : Prop :=
  ∀ e ∈ edges, order e.1 < order e.2

/-! ### Concrete fixtures used by witnesses -/

/-- A sample valid drug record. -/
def aspirinDrug : Drugs := ⟨"d1", "Aspirin"⟩

/-- A sample valid mention whose title contains the drug's name. -/
def aspirinMention : Mention :=
  ⟨"p1", "Aspirin reduces risk", "NEJM", "2020-01-01", "pubmed"⟩

/-- The gold operator wired as in `dag.py`, with an empty root. -/
def gopW : GoldOp := goldOpFor []

/-- A sample boundary reader for the drugs source. -/
def rdW : Path → String → Except String (List Drugs × List Nat) :=
  fun _ _ => .ok ([aspirinDrug], [])

/-- A sample boundary reader for the PubMed-JSON source. -/
def rpjW : Path → String → Except String (List Mention × List Nat) :=
  fun _ _ => .ok ([aspirinMention], [])

/-- A sample boundary reader for the PubMed-CSV source, returning the same
mention as the JSON reader. -/
def rpcW : Path → String → Except String (List Mention × List Nat) :=
  fun _ _ => .ok ([aspirinMention], [])

/-- A sample boundary reader for the clinical-trials source. -/
def rcW : Path → String → Except String (List Mention × List Nat) :=
  fun _ _ => .ok ([], [])

/-- A drugs reader agreeing with `rdW` on the valid half only. -/
def rdW2 : Path → String → Except String (List Drugs × List String) :=
  fun _ _ => .ok ([aspirinDrug], ["junk"])

/-- A PubMed-JSON reader agreeing with `rpjW` on the valid half only. -/
def rpjW2 : Path → String → Except String (List Mention × List String) :=
  fun _ _ => .ok ([aspirinMention], ["junk"])

/-- A PubMed-CSV reader agreeing with `rpcW` on the valid half only. -/
def rpcW2 : Path → String → Except String (List Mention × List String) :=
  fun _ _ => .ok ([aspirinMention], [])

/-- A clinical-trials reader agreeing with `rcW` on the valid half only. -/
def rcW2 : Path → String → Except String (List Mention × List String) :=
  fun _ _ => .ok ([], ["junk"])

/-- The silver operator built as in `dag.py` for a drugs file under a
one-segment parent directory. -/
def silverOpW : SilverOp := silverOpFor (["d", "drugs.csv"])

/-- A sample silver boundary reader returning one valid and one invalid
record. -/
def silverReadW : Path → String → Except String (List Nat × List String) :=
  fun _ _ => .ok ([7], ["bad"])

/-- A sample silver boundary reader that raises a parse fault. -/
def silverFailReadW : Path → String → Except String (List Nat × List String) :=
  fun _ _ => .error ("parse fault")

/-- A concrete schedule: start, then the bronze tasks, then the silver tasks,
then gold, then end. -/
def scheduleW : String → Nat := fun s =>
  if s = startTaskId then 0
  else if s = goldTaskId then 3
  else if s = endTaskId then 4
  else if s ∈ (all_paths_local []).map bronzeTaskIdOf then 1
  else 2

/-- The effect trace of the sample silver run of `silverOpW` with
`silverReadW`. -/
def tsW : List (FsEffect (List Nat ⊕ List String)) :=
  [.saveFile (Sum.inr ["bad"]) (["d", "error", "drugs_error.json"]),
   .saveFile (Sum.inl [7]) (["d", "valid", "drugs_valid.json"]),
   .gcsHandlerBlob ("push") ("servier-silver")
     (["d", "error", "drugs_error.json"]) ("drugs/drugs_error.json"),
   .gcsHandlerBlob ("push") ("servier-silver")
     (["d", "valid", "drugs_valid.json"]) ("drugs/drugs_valid.json"),
   .rmtree (["d", "error"]),
   .rmtree (["d", "valid"])]

/-- The effect trace of the sample gold run of `gopW` with the sample
readers. -/
def tgW : List (FsEffect (List ReconciliationResult)) :=
  [.saveFile
     (goldReconcile (pubmedValidOf [aspirinMention] [aspirinMention]) []
       [aspirinDrug])
     (["reconciliated", "drug_reconciliated.json"]),
   .gcsHandlerBlob ("push") ("servier-gold")
     (["reconciliated", "drug_reconciliated.json"])
     ("drug_reconciliated.json"),
   .rmtree (["reconciliated"])]

/-! ### Helper lemmas -/

theorem Path.name_append_two (l : Path) (a b : String) :
    Path.name (l ++ [a, b]) = b := by
  have : l ++ [a, b] = (l ++ [a]) ++ [b] := by simp
  rw [Path.name, this]
  simp

theorem Path.parent_append_two (l : Path) (a b : String) :
    Path.parent (l ++ [a, b]) = l ++ [a] := by
  have : l ++ [a, b] = (l ++ [a]) ++ [b] := by simp
  rw [Path.parent, this]
  simp

theorem parallelRun_eq_map {α β : Type} (n_jobs : Nat) (f : α → β)
    (xs : List α) : parallelRun n_jobs f xs = xs.map f := by
  induction xs with
  | nil => rfl
  | cons x xs ih =>
    rw [parallelRun] at ih ⊢
    simp only [List.length_cons, List.range_succ_eq_map, List.filterMap_cons,
      List.getElem?_cons_zero, Option.map_some, List.filterMap_map,
      Function.comp_def, List.getElem?_cons_succ, List.map_cons, ih]
    rfl

/-- On success of the read, `silverExecute` emits exactly this trace. -/
theorem silverExecute_ok {α ρ ε : Type} (op : SilverOp)
    (read_file : Path → String → Except ε (List α × List ρ))
    (valid_items : List α) (invalid_items : List ρ)
    (h : read_file op.local_file_name op.type_of_schema =
      .ok (valid_items, invalid_items)) :
    silverExecute op read_file =
      .ok [.saveFile (Sum.inr invalid_items)
             (Path.parent op.local_file_name ++
               ["error", Path.stem op.local_file_name ++ "_error.json"]),
           .saveFile (Sum.inl valid_items)
             (Path.parent op.local_file_name ++
               ["valid", Path.stem op.local_file_name ++ "_valid.json"]),
           .gcsHandlerBlob ("push") op.bucket_name
             (Path.parent op.local_file_name ++
               ["error", Path.stem op.local_file_name ++ "_error.json"])
             (op.prefix_gcs_file_name ++ "/" ++
               (Path.stem op.local_file_name ++ "_error.json")),
           .gcsHandlerBlob ("push") op.bucket_name
             (Path.parent op.local_file_name ++
               ["valid", Path.stem op.local_file_name ++ "_valid.json"])
             (op.prefix_gcs_file_name ++ "/" ++
               (Path.stem op.local_file_name ++ "_valid.json")),
           .rmtree (Path.parent op.local_file_name ++ ["error"]),
           .rmtree (Path.parent op.local_file_name ++ ["valid"])] := by
  simp only [silverExecute, h, Path.name_append_two, Path.parent_append_two]

/-- On success of all four reads, `goldExecute` emits exactly this trace. -/
theorem goldExecute_ok {ρ ε : Type} (opRoot : Path) (op : GoldOp)
    (read_file_drugs : Path → String → Except ε (List Drugs × List ρ))
    (read_file_pubmed_json read_file_pubmed_csv read_file_clinical_trials :
      Path → String → Except ε (List Mention × List ρ))
    (dv : List Drugs) (pjv pcv cv : List Mention) (i1 i2 i3 i4 : List ρ)
    (h1 : read_file_drugs op.path_elements_drug
      (Path.stem op.path_elements_drug) = .ok (dv, i1))
    (h2 : read_file_pubmed_json op.path_elements_pubmed_json
      (Path.stem op.path_elements_pubmed_json) = .ok (pjv, i2))
    (h3 : read_file_pubmed_csv op.path_elements_pubmed_csv
      (Path.stem op.path_elements_pubmed_csv) = .ok (pcv, i3))
    (h4 : read_file_clinical_trials op.path_elements_clinical_trials
      (Path.stem op.path_elements_clinical_trials) = .ok (cv, i4)) :
    goldExecute opRoot op read_file_drugs read_file_pubmed_json
        read_file_pubmed_csv read_file_clinical_trials =
      .ok [.saveFile (goldReconcile (pubmedValidOf pjv pcv) cv dv)
             (reconciliatedDataPath opRoot),
           .gcsHandlerBlob ("push") op.bucket_name
             (reconciliatedDataPath opRoot) ("drug_reconciliated.json"),
           .rmtree (opRoot ++ ["reconciliated"])] := by
  simp only [goldExecute, h1, h2, h3, h4, reconciliatedDataPath,
    Path.name_append_two, Path.parent_append_two]

/-! ### Claim theorems -/

/-- C1: for every drug `D` and every mention `M` in the pubmed or
clinical-trials inputs, the per-drug reconciliation result for `D` includes
`M` iff `D`'s name, case-folded, occurs as a substring of `M`'s title,
case-folded. -/
theorem reconcile_match_substring_law (drug : Drugs)
    (elements_pubmed elements_clinical_trials : List Mention) (m : Mention)
    (hm : m ∈ elements_pubmed ++ elements_clinical_trials) :
    m ∈ (reconciliation_data drug elements_pubmed
        elements_clinical_trials).mentions ↔
      containsSub (lowerData drug.name) (lowerData m.title) = true := by
  have hmen : (reconciliation_data drug elements_pubmed
      elements_clinical_trials).mentions =
      (elements_pubmed ++ elements_clinical_trials).filter
        (mentionMatches drug) := rfl
  rw [hmen, List.mem_filter]
  simp only [hm, true_and, mentionMatches]

/-- Witness for C1 at a concrete drug and mention. -/
theorem reconcile_match_substring_law_witness :
    aspirinMention ∈ [aspirinMention] ++ ([] : List Mention) ∧
      (aspirinMention ∈ (reconciliation_data aspirinDrug [aspirinMention]
          []).mentions ↔
        containsSub (lowerData aspirinDrug.name)
          (lowerData aspirinMention.title) = true) :=
  ⟨by decide,
   reconcile_match_substring_law aspirinDrug [aspirinMention] [] aspirinMention
     (by decide)⟩

/-- C2: the gold-stage reconciled output has the same length as the valid
drug sequence, and its entry at every index is the reconciliation of the drug
at that same index — input order is preserved. -/
theorem gold_order_preservation (elements_pubmed elements_clinical_trials :
    List Mention) (drug_valid_items : List Drugs) :
    (goldReconcile elements_pubmed elements_clinical_trials
        drug_valid_items).length = drug_valid_items.length ∧
      ∀ i : Nat,
        (goldReconcile elements_pubmed elements_clinical_trials
            drug_valid_items)[i]? =
          Option.map
            (fun drug => reconciliation_data drug elements_pubmed
              elements_clinical_trials) drug_valid_items[i]? := by
  rw [goldReconcile, parallelRun_eq_map]
  exact ⟨by simp, fun i => by simp⟩

/-- C3: the PubMed input handed to every drug's reconciliation is the valid
PubMed-JSON records followed by the valid PubMed-CSV records; its length is
the sum of the two partitions' lengths, and a mention present in both origins
stays present (at least) twice — no cross-origin deduplication. -/
theorem pubmed_input_concat {ρ ε : Type} (opRoot : Path) (op : GoldOp)
    (read_file_drugs : Path → String → Except ε (List Drugs × List ρ))
    (read_file_pubmed_json read_file_pubmed_csv read_file_clinical_trials :
      Path → String → Except ε (List Mention × List ρ))
    (dv : List Drugs) (pjv pcv cv : List Mention) (i1 i2 i3 i4 : List ρ)
    (h1 : read_file_drugs op.path_elements_drug
      (Path.stem op.path_elements_drug) = .ok (dv, i1))
    (h2 : read_file_pubmed_json op.path_elements_pubmed_json
      (Path.stem op.path_elements_pubmed_json) = .ok (pjv, i2))
    (h3 : read_file_pubmed_csv op.path_elements_pubmed_csv
      (Path.stem op.path_elements_pubmed_csv) = .ok (pcv, i3))
    (h4 : read_file_clinical_trials op.path_elements_clinical_trials
      (Path.stem op.path_elements_clinical_trials) = .ok (cv, i4)) :
    goldExecute opRoot op read_file_drugs read_file_pubmed_json
        read_file_pubmed_csv read_file_clinical_trials =
      .ok [.saveFile (goldReconcile (pubmedValidOf pjv pcv) cv dv)
             (reconciliatedDataPath opRoot),
           .gcsHandlerBlob ("push") op.bucket_name
             (reconciliatedDataPath opRoot) ("drug_reconciliated.json"),
           .rmtree (opRoot ++ ["reconciliated"])] ∧
      pubmedValidOf pjv pcv = pjv ++ pcv ∧
      (pubmedValidOf pjv pcv).length = pjv.length + pcv.length ∧
      ∀ m : Mention, m ∈ pjv → m ∈ pcv →
        2 ≤ (pubmedValidOf pjv pcv).count m := by
  refine ⟨goldExecute_ok opRoot op read_file_drugs read_file_pubmed_json
    read_file_pubmed_csv read_file_clinical_trials dv pjv pcv cv i1 i2 i3 i4
    h1 h2 h3 h4, rfl, by simp [pubmedValidOf], ?_⟩
  intro m hj hc
  rw [pubmedValidOf, List.count_append]
  have hj' : 0 < pjv.count m := List.count_pos_iff.mpr hj
  have hc' : 0 < pcv.count m := List.count_pos_iff.mpr hc
  exact Nat.add_le_add hj' hc'

/-- Witness for C3: a mention read from both PubMed origins is counted twice
in the concatenated input. -/
theorem pubmed_input_concat_witness :
    aspirinMention ∈ [aspirinMention] ∧
      2 ≤ (pubmedValidOf [aspirinMention] [aspirinMention]).count
        aspirinMention :=
  ⟨by decide,
   (pubmed_input_concat [] gopW rdW rpjW rpcW rcW [aspirinDrug]
       [aspirinMention] [aspirinMention] [] [] [] [] [] rfl rfl rfl
       rfl).2.2.2 aspirinMention (by decide) (by decide)⟩

/-- C4: the gold-stage reconciliation is the job-pool run, with the hardcoded
degree of parallelism `1`, of the one per-drug function closed over the
shared pubmed and clinical-trials sequences — and it equals the sequential
map of that function over the drugs. -/
theorem gold_parallel_map_njobs_one (elements_pubmed
    elements_clinical_trials : List Mention)
    (drug_valid_items : List Drugs) :
    goldReconcile elements_pubmed elements_clinical_trials drug_valid_items =
        parallelRun 1
          (fun drug => reconciliation_data drug elements_pubmed
            elements_clinical_trials) drug_valid_items ∧
      goldReconcile elements_pubmed elements_clinical_trials
          drug_valid_items =
        drug_valid_items.map
          (fun drug => reconciliation_data drug elements_pubmed
            elements_clinical_trials) :=
  ⟨rfl, by rw [goldReconcile, parallelRun_eq_map]⟩

/-- C5: the gold stage consumes only the valid half of each of the four
reads — replacing every invalid partition by anything else (even of another
type) leaves the result of `execute` unchanged. -/
theorem gold_discards_invalid {ρ ρ' ε : Type} (opRoot : Path) (op : GoldOp)
    (r1 : Path → String → Except ε (List Drugs × List ρ))
    (r2 r3 r4 : Path → String → Except ε (List Mention × List ρ))
    (s1 : Path → String → Except ε (List Drugs × List ρ'))
    (s2 s3 s4 : Path → String → Except ε (List Mention × List ρ'))
    (dv : List Drugs) (pjv pcv cv : List Mention)
    (i1 i2 i3 i4 : List ρ) (j1 j2 j3 j4 : List ρ')
    (h1 : r1 op.path_elements_drug (Path.stem op.path_elements_drug) =
      .ok (dv, i1))
    (h2 : r2 op.path_elements_pubmed_json
      (Path.stem op.path_elements_pubmed_json) = .ok (pjv, i2))
    (h3 : r3 op.path_elements_pubmed_csv
      (Path.stem op.path_elements_pubmed_csv) = .ok (pcv, i3))
    (h4 : r4 op.path_elements_clinical_trials
      (Path.stem op.path_elements_clinical_trials) = .ok (cv, i4))
    (g1 : s1 op.path_elements_drug (Path.stem op.path_elements_drug) =
      .ok (dv, j1))
    (g2 : s2 op.path_elements_pubmed_json
      (Path.stem op.path_elements_pubmed_json) = .ok (pjv, j2))
    (g3 : s3 op.path_elements_pubmed_csv
      (Path.stem op.path_elements_pubmed_csv) = .ok (pcv, j3))
    (g4 : s4 op.path_elements_clinical_trials
      (Path.stem op.path_elements_clinical_trials) = .ok (cv, j4)) :
    goldExecute opRoot op r1 r2 r3 r4 = goldExecute opRoot op s1 s2 s3 s4 := by
  rw [goldExecute_ok opRoot op r1 r2 r3 r4 dv pjv pcv cv i1 i2 i3 i4 h1 h2 h3
    h4, goldExecute_ok opRoot op s1 s2 s3 s4 dv pjv pcv cv j1 j2 j3 j4 g1 g2
    g3 g4]

/-- Witness for C5 at concrete readers whose invalid halves differ. -/
theorem gold_discards_invalid_witness :
    goldExecute [] gopW rdW rpjW rpcW rcW =
      goldExecute [] gopW rdW2 rpjW2 rpcW2 rcW2 :=
  gold_discards_invalid [] gopW rdW rpjW rpcW rcW rdW2 rpjW2 rpcW2 rcW2
    [aspirinDrug] [aspirinMention] [aspirinMention] [] [] [] [] []
    ["junk"] ["junk"] [] ["junk"] rfl rfl rfl rfl rfl rfl rfl rfl

/-- C6: on a successful read, the silver stage persists both partitions —
the invalid partition locally as `<stem>_error.json` and the valid partition
as `<stem>_valid.json` — and then pushes each to the configured bucket under
`<prefix_gcs_file_name>/<local file name>`, invalid before valid. -/
theorem silver_persists_partitions {α ρ ε : Type} (op : SilverOp)
    (read_file : Path → String → Except ε (List α × List ρ))
    (valid_items : List α) (invalid_items : List ρ)
    (h : read_file op.local_file_name op.type_of_schema =
      .ok (valid_items, invalid_items)) :
    silverExecute op read_file =
      .ok [.saveFile (Sum.inr invalid_items)
             (Path.parent op.local_file_name ++
               ["error", Path.stem op.local_file_name ++ "_error.json"]),
           .saveFile (Sum.inl valid_items)
             (Path.parent op.local_file_name ++
               ["valid", Path.stem op.local_file_name ++ "_valid.json"]),
           .gcsHandlerBlob ("push") op.bucket_name
             (Path.parent op.local_file_name ++
               ["error", Path.stem op.local_file_name ++ "_error.json"])
             (op.prefix_gcs_file_name ++ "/" ++
               (Path.stem op.local_file_name ++ "_error.json")),
           .gcsHandlerBlob ("push") op.bucket_name
             (Path.parent op.local_file_name ++
               ["valid", Path.stem op.local_file_name ++ "_valid.json"])
             (op.prefix_gcs_file_name ++ "/" ++
               (Path.stem op.local_file_name ++ "_valid.json")),
           .rmtree (Path.parent op.local_file_name ++ ["error"]),
           .rmtree (Path.parent op.local_file_name ++ ["valid"])] :=
  silverExecute_ok op read_file valid_items invalid_items h

/-- Witness for C6 at a concrete operator and reader. -/
theorem silver_persists_partitions_witness :
    silverReadW silverOpW.local_file_name silverOpW.type_of_schema =
        .ok ([7], ["bad"]) ∧
      silverExecute silverOpW silverReadW =
        .ok [.saveFile (Sum.inr ["bad"])
               (Path.parent silverOpW.local_file_name ++
                 ["error", Path.stem silverOpW.local_file_name ++
                   "_error.json"]),
             .saveFile (Sum.inl [7])
               (Path.parent silverOpW.local_file_name ++
                 ["valid", Path.stem silverOpW.local_file_name ++
                   "_valid.json"]),
             .gcsHandlerBlob ("push") silverOpW.bucket_name
               (Path.parent silverOpW.local_file_name ++
                 ["error", Path.stem silverOpW.local_file_name ++
                   "_error.json"])
               (silverOpW.prefix_gcs_file_name ++ "/" ++
                 (Path.stem silverOpW.local_file_name ++ "_error.json")),
             .gcsHandlerBlob ("push") silverOpW.bucket_name
               (Path.parent silverOpW.local_file_name ++
                 ["valid", Path.stem silverOpW.local_file_name ++
                   "_valid.json"])
               (silverOpW.prefix_gcs_file_name ++ "/" ++
                 (Path.stem silverOpW.local_file_name ++ "_valid.json")),
             .rmtree (Path.parent silverOpW.local_file_name ++ ["error"]),
             .rmtree (Path.parent silverOpW.local_file_name ++ ["valid"])] :=
  ⟨rfl, silver_persists_partitions silverOpW silverReadW [7] ["bad"] rfl⟩

/-- C7: if the boundary read raises, the silver stage propagates that fault
and persists nothing — its result is the fault itself and never a trace of
effects. -/
theorem silver_read_fault_aborts {α ρ ε : Type} (op : SilverOp)
    (read_file : Path → String → Except ε (List α × List ρ)) (e : ε)
    (h : read_file op.local_file_name op.type_of_schema = .error e) :
    silverExecute op read_file = .error e ∧
      ∀ tr, silverExecute op read_file ≠ .ok tr := by
  have hrun : silverExecute op read_file = .error e := by
    simp only [silverExecute, h]
  exact ⟨hrun, fun tr htr => by rw [hrun] at htr; exact Except.noConfusion htr⟩

/-- Witness for C7 at a concrete operator and failing reader. -/
theorem silver_read_fault_aborts_witness :
    silverFailReadW silverOpW.local_file_name silverOpW.type_of_schema =
        .error ("parse fault") ∧
      silverExecute silverOpW silverFailReadW = .error ("parse fault") :=
  ⟨rfl,
   (silver_read_fault_aborts silverOpW silverFailReadW ("parse fault")
     rfl).1⟩

/-- C8: in the workflow graph, every schedule respecting the dependency edges
runs, for each of the four source files, the bronze (raw) task after the
start point and before the silver (validation) task, every silver task before
the single gold reconciliation task, and the gold task before the end
point — so reconciliation never runs before every source's validation has
completed. -/
theorem dag_stage_ordering (root : Path) (order : String → Nat)
    (hord : respects order (dagEdges root)) :
    ∀ p ∈ all_paths_local root,
      order startTaskId < order (bronzeTaskIdOf p) ∧
        order (bronzeTaskIdOf p) < order (silverTaskIdOf p) ∧
        order (silverTaskIdOf p) < order goldTaskId ∧
        order goldTaskId < order endTaskId := by
  intro p hp
  have he : ∀ ab ∈ [(startTaskId, bronzeTaskIdOf p),
      (bronzeTaskIdOf p, silverTaskIdOf p), (silverTaskIdOf p, goldTaskId),
      (goldTaskId, endTaskId)], ab ∈ dagEdges root := by
    intro ab hab
    exact List.mem_flatMap.mpr ⟨p, hp, hab⟩
  exact ⟨hord (startTaskId, bronzeTaskIdOf p)
      (he (startTaskId, bronzeTaskIdOf p) (by simp)),
    hord (bronzeTaskIdOf p, silverTaskIdOf p)
      (he (bronzeTaskIdOf p, silverTaskIdOf p) (by simp)),
    hord (silverTaskIdOf p, goldTaskId)
      (he (silverTaskIdOf p, goldTaskId) (by simp)),
    hord (goldTaskId, endTaskId) (he (goldTaskId, endTaskId) (by simp))⟩

/-- Witness for C8 at the empty root and a concrete respecting schedule. -/
theorem dag_stage_ordering_witness :
    respects scheduleW (dagEdges []) ∧
      path_drugs [] ∈ all_paths_local [] ∧
      scheduleW (silverTaskIdOf (path_drugs [])) < scheduleW goldTaskId :=
  ⟨by unfold respects; decide, by decide,
   (dag_stage_ordering [] scheduleW (by unfold respects; decide)
     (path_drugs []) (by decide)).2.2.1⟩

/-- C9: the schema kind handed to validation is always the source file's
stem — for the pipeline's four fixed inputs the kinds are exactly "drugs",
"pubmed", "pubmed" and "clinical_trials", so `pubmed.json` and `pubmed.csv`
are validated under the same schema kind. -/
theorem schema_kind_from_stem (root : Path) :
    (silverOpFor (path_drugs root)).type_of_schema = "drugs" ∧
      (silverOpFor (path_file_pubmed_json root)).type_of_schema = "pubmed" ∧
      (silverOpFor (path_file_pubmed_csv root)).type_of_schema = "pubmed" ∧
      (silverOpFor (path_file_clinical_trials root)).type_of_schema =
        "clinical_trials" ∧
      (∀ p : Path, (silverOpFor p).type_of_schema = Path.stem p) ∧
      Path.stem ((goldOpFor root).path_elements_drug) = "drugs" ∧
      Path.stem ((goldOpFor root).path_elements_pubmed_json) = "pubmed" ∧
      Path.stem ((goldOpFor root).path_elements_pubmed_csv) = "pubmed" ∧
      Path.stem ((goldOpFor root).path_elements_clinical_trials) =
        "clinical_trials" := by
  have h1 : Path.stem (path_drugs root) = "drugs" := by
    rw [path_drugs, Path.stem, Path.name_append_two]; decide
  have h2 : Path.stem (path_file_pubmed_json root) = "pubmed" := by
    rw [path_file_pubmed_json, Path.stem, Path.name_append_two]; decide
  have h3 : Path.stem (path_file_pubmed_csv root) = "pubmed" := by
    rw [path_file_pubmed_csv, Path.stem, Path.name_append_two]; decide
  have h4 : Path.stem (path_file_clinical_trials root) = "clinical_trials" :=
    by rw [path_file_clinical_trials, Path.stem, Path.name_append_two]; decide
  exact ⟨h1, h2, h3, h4, fun p => rfl, h1, h2, h3, h4⟩

/-- C10: after a successful silver run the stage's temporary `error` and
`valid` directories are removed, after a successful gold run the
`reconciliated` directory is removed, the gold result is pushed under the
fixed blob name `drug_reconciliated.json` regardless of configuration, and
every local write or removal in either trace stays within those temporary
directories. -/
theorem stage_cleanup_and_fixed_blob {α ρ ε ρ2 ε2 : Type} (sop : SilverOp)
    (sread : Path → String → Except ε (List α × List ρ))
    (valid_items : List α) (invalid_items : List ρ)
    (hs : sread sop.local_file_name sop.type_of_schema =
      .ok (valid_items, invalid_items))
    (opRoot : Path) (gop : GoldOp)
    (r1 : Path → String → Except ε2 (List Drugs × List ρ2))
    (r2 r3 r4 : Path → String → Except ε2 (List Mention × List ρ2))
    (dv : List Drugs) (pjv pcv cv : List Mention) (i1 i2 i3 i4 : List ρ2)
    (h1 : r1 gop.path_elements_drug (Path.stem gop.path_elements_drug) =
      .ok (dv, i1))
    (h2 : r2 gop.path_elements_pubmed_json
      (Path.stem gop.path_elements_pubmed_json) = .ok (pjv, i2))
    (h3 : r3 gop.path_elements_pubmed_csv
      (Path.stem gop.path_elements_pubmed_csv) = .ok (pcv, i3))
    (h4 : r4 gop.path_elements_clinical_trials
      (Path.stem gop.path_elements_clinical_trials) = .ok (cv, i4))
    (ts : List (FsEffect (List α ⊕ List ρ)))
    (tg : List (FsEffect (List ReconciliationResult)))
    (hts : silverExecute sop sread = .ok ts)
    (htg : goldExecute opRoot gop r1 r2 r3 r4 = .ok tg) :
    (FsEffect.rmtree (Path.parent sop.local_file_name ++ ["error"]) ∈ ts ∧
      FsEffect.rmtree (Path.parent sop.local_file_name ++ ["valid"]) ∈ ts ∧
      ∀ e ∈ ts, FsEffect.writesWithin
        [Path.parent sop.local_file_name ++ ["error"],
         Path.parent sop.local_file_name ++ ["valid"]] e) ∧
      (FsEffect.rmtree (opRoot ++ ["reconciliated"]) ∈ tg ∧
        FsEffect.gcsHandlerBlob ("push") gop.bucket_name
          (reconciliatedDataPath opRoot) ("drug_reconciliated.json") ∈ tg ∧
        ∀ e ∈ tg, FsEffect.writesWithin [opRoot ++ ["reconciliated"]] e) := by
  have hts' := silverExecute_ok sop sread valid_items invalid_items hs
  rw [hts] at hts'
  injection hts' with hts2
  subst hts2
  have htg' := goldExecute_ok opRoot gop r1 r2 r3 r4 dv pjv pcv cv i1 i2 i3
    i4 h1 h2 h3 h4
  rw [htg] at htg'
  injection htg' with htg2
  subst htg2
  refine ⟨⟨by simp, by simp, ?_⟩, by simp, by simp, ?_⟩
  · intro e he
    simp only [List.mem_cons, List.not_mem_nil, or_false] at he
    rcases he with rfl | rfl | rfl | rfl | rfl | rfl <;>
      simp [FsEffect.writesWithin, Path.parent_append_two]
  · intro e he
    simp only [List.mem_cons, List.not_mem_nil, or_false] at he
    rcases he with rfl | rfl | rfl <;>
      simp [FsEffect.writesWithin, reconciliatedDataPath,
        Path.parent_append_two]

/-- Witness for C10 at concrete operators, readers and traces. -/
theorem stage_cleanup_and_fixed_blob_witness :
    (FsEffect.rmtree (Path.parent silverOpW.local_file_name ++ ["error"]) ∈
        tsW ∧
      FsEffect.rmtree (Path.parent silverOpW.local_file_name ++ ["valid"]) ∈
        tsW ∧
      ∀ e ∈ tsW, FsEffect.writesWithin
        [Path.parent silverOpW.local_file_name ++ ["error"],
         Path.parent silverOpW.local_file_name ++ ["valid"]] e) ∧
      (FsEffect.rmtree (([] : Path) ++ ["reconciliated"]) ∈ tgW ∧
        FsEffect.gcsHandlerBlob ("push") gopW.bucket_name
          (reconciliatedDataPath []) ("drug_reconciliated.json") ∈ tgW ∧
        ∀ e ∈ tgW, FsEffect.writesWithin [([] : Path) ++ ["reconciliated"]]
          e) :=
  stage_cleanup_and_fixed_blob silverOpW silverReadW [7] ["bad"] rfl []
    gopW rdW rpjW rpcW rcW [aspirinDrug] [aspirinMention] [aspirinMention]
    [] [] [] [] [] rfl rfl rfl rfl tsW tgW rfl rfl

end DagServier
